import Mathlib

/-!
Shallow embedding of the blueos-micro-ros-agent backend
(`app/settings.py` and `app/main.py`) and proofs about the claims of its
specification.

Modelling conventions:
* JSON documents are `JVal`; Python `dict` objects are association lists
  in insertion order (assignment replaces an existing key in place,
  otherwise appends, as CPython dicts do).
* The settings file on disk is a `FileState`: absent, unreadable (open
  raises), unparseable (`json.load` raises), or parsed content.
* I/O outcomes of a `save_settings` call are a `WriteOutcome` parameter:
  `ok` (write succeeds), `failEarly` (makedirs/open raises before the
  file is truncated, previous content intact), `failMid` (`json.dump`
  raises after `open(.., "w")` truncated the file, leaving it
  unparseable).
* Python exceptions that escape a function are `Except PyErr`; functions
  whose bodies catch all exceptions are total.
* Log output is returned as a `List LogEntry` alongside the state.
-/

/-- A JSON value as produced by `json.load`. -/
inductive JVal where
  | jNull : JVal
  | jBool (b : Bool) : JVal
  | jInt (n : Int) : JVal
  | jStr (s : String) : JVal
  | jArr (xs : List JVal) : JVal
  | jObj (fields : List (String × JVal)) : JVal
deriving Repr

/-- Python exception kinds relevant to this program. -/
inductive PyErr where
  | attributeError : PyErr
  | typeError : PyErr
deriving Repr, DecidableEq

/-- The state of the settings file on disk. -/
inductive FileState where
  | absent : FileState
  | unreadable : FileState
  | unparseable : FileState
  | content (j : JVal) : FileState
deriving Repr

/-- Outcome of one attempt to write the settings file. -/
inductive WriteOutcome where
  | ok : WriteOutcome
  | failEarly : WriteOutcome
  | failMid : WriteOutcome
deriving Repr, DecidableEq

/-- Lookup in a Python dict modelled as an association list. -/
def alistLookup : List (String × JVal) → String → Option JVal
  | [], _ => none
  | (k, w) :: rest, key => if k = key then some w else alistLookup rest key

/-- Item assignment `d[key] = v` on a Python dict: replaces in place or
appends, preserving insertion order. -/
def alistSet : List (String × JVal) → String → JVal → List (String × JVal)
  | [], key, v => [(key, v)]
  | (k, w) :: rest, key, v =>
      if k = key then (key, v) :: rest else (k, w) :: alistSet rest key v

/-- Python `d.get(key, dflt)`: succeeds on a dict, raises
`AttributeError` on any other value (lists and strings have no `get`). -/
def pyDictGet (s : JVal) (key : String) (dflt : JVal) : Except PyErr JVal :=
  match s with
  | .jObj fields => .ok ((alistLookup fields key).getD dflt)
  | _ => .error .attributeError

/-- Python truthiness of a JSON value (`if enabled:`). -/
def pyTruthy : JVal → Bool
  | .jNull => false
  | .jBool b => b
  | .jInt n => decide (n ≠ 0)
  | .jStr s => decide (s ≠ "")
  | .jArr xs => !xs.isEmpty
  | .jObj fields => !fields.isEmpty

/-- `DEFAULT_SETTINGS["micro_ros_agent"]["enabled"]` (settings.py line 23). -/
def default_enabled : JVal := .jBool false

/-- `DEFAULT_SETTINGS["micro_ros_agent"]["transport"]` (settings.py line 24). -/
def default_transport : JVal := .jStr "udp4"

/-- `DEFAULT_SETTINGS["micro_ros_agent"]["port"]` (settings.py line 25):
note the source stores the STRING "2019", not the integer 2019. -/
def default_port : JVal := .jStr "2019"

/-- `DEFAULT_SETTINGS["micro_ros_agent"]["verbose"]` (settings.py line 26):
the source stores the STRING "4". -/
def default_verbose : JVal := .jStr "4"

/-- `DEFAULT_SETTINGS` from settings.py lines 21-28. -/
def DEFAULT_SETTINGS : JVal :=
  .jObj [("micro_ros_agent", .jObj
    [("enabled", default_enabled),
     ("transport", default_transport),
     ("port", default_port),
     ("verbose", default_verbose)])]

/-- `save_settings` (settings.py lines 62-76). It catches every exception
internally (only logging it), so it never raises and returns nothing;
its sole observable effect is the resulting file state. A failure before
the `open` leaves the file as it was; a failure during `json.dump`
leaves a truncated, unparseable file, since `open(.., "w")` truncates. -/
def save_settings (wo : WriteOutcome) (fs : FileState) (s : JVal) : FileState :=
  match wo with
  | .ok => .content s
  | .failEarly => fs
  | .failMid => .unparseable

/-- `get_settings` (settings.py lines 32-58). Returns the parsed
settings and the resulting file state. If the file is absent it writes
the defaults and returns them; if reading or parsing raises, the
`except` branch also writes the defaults and returns them. The inner
`try` around `save_settings` is irrelevant because `save_settings`
never raises. -/
def get_settings (wo : WriteOutcome) (fs : FileState) : JVal × FileState :=
  match fs with
  | .absent => (DEFAULT_SETTINGS, save_settings wo fs DEFAULT_SETTINGS)
  | .unreadable => (DEFAULT_SETTINGS, save_settings wo fs DEFAULT_SETTINGS)
  | .unparseable => (DEFAULT_SETTINGS, save_settings wo fs DEFAULT_SETTINGS)
  | .content j => (j, fs)

/-- The chained expression
`settings.get("micro_ros_agent", \x7b\x7d).get(key, dflt)` shared by the
transport/port/verbose getters (settings.py lines 137, 178, 219). -/
def pyGetSectionKey (s : JVal) (key : String) (dflt : JVal) : Except PyErr JVal :=
  match pyDictGet s "micro_ros_agent" (.jObj []) with
  | .error e => .error e
  | .ok sect => pyDictGet sect key dflt

/-- `get_micro_ros_agent_transport` (settings.py lines 129-139).
No try/except of its own: an `AttributeError` from `.get` propagates. -/
def get_micro_ros_agent_transport (wo : WriteOutcome) (fs : FileState) :
    Except PyErr (JVal × FileState) :=
  match pyGetSectionKey (get_settings wo fs).1 "transport" default_transport with
  | .error e => .error e
  | .ok v => .ok (v, (get_settings wo fs).2)

/-- `get_micro_ros_agent_port` (settings.py lines 170-180). -/
def get_micro_ros_agent_port (wo : WriteOutcome) (fs : FileState) :
    Except PyErr (JVal × FileState) :=
  match pyGetSectionKey (get_settings wo fs).1 "port" default_port with
  | .error e => .error e
  | .ok v => .ok (v, (get_settings wo fs).2)

/-- `get_micro_ros_agent_verbose` (settings.py lines 211-221). -/
def get_micro_ros_agent_verbose (wo : WriteOutcome) (fs : FileState) :
    Except PyErr (JVal × FileState) :=
  match pyGetSectionKey (get_settings wo fs).1 "verbose" default_verbose with
  | .error e => .error e
  | .ok v => .ok (v, (get_settings wo fs).2)

/-- `get_micro_ros_agent_enabled` (settings.py lines 80-98). Its body is
wrapped in try/except returning `False`, so it is total: it returns the
stored value when the document is an object whose `micro_ros_agent`
entry is an object containing `enabled`; every other shape ends in the
documented default `False` or in a caught exception returning `False`. -/
def get_micro_ros_agent_enabled (wo : WriteOutcome) (fs : FileState) :
    JVal × FileState :=
  match get_settings wo fs with
  | (.jObj fields, fs') =>
    match alistLookup fields "micro_ros_agent" with
    | some (.jObj sect) =>
      match alistLookup sect "enabled" with
      | some v => (v, fs')
      | none => (default_enabled, fs')
    | some _ => (default_enabled, fs')
    | none => (default_enabled, fs')
  | (_, fs') => (default_enabled, fs')

/-- The shared update skeleton of the four `update_micro_ros_agent_*`
functions: ensure the `micro_ros_agent` section exists, then assign
`settings["micro_ros_agent"][key] = v`. On a non-object document or a
non-object section the assignment raises `TypeError`. -/
def pySetSection (s : JVal) (key : String) (v : JVal) : Except PyErr JVal :=
  match s with
  | .jObj fields =>
    match alistLookup fields "micro_ros_agent" with
    | some (.jObj sect) =>
        .ok (.jObj (alistSet fields "micro_ros_agent" (.jObj (alistSet sect key v))))
    | some _ => .error .typeError
    | none => .ok (.jObj (alistSet fields "micro_ros_agent" (.jObj [(key, v)])))
  | _ => .error .typeError

/-- `update_micro_ros_agent_transport` (settings.py lines 143-166).
Returns the reported success flag and the resulting file state. Note
that `save_settings` swallows its own I/O errors, so the `True` branch
is reached even when the write failed. -/
def update_micro_ros_agent_transport (wo : WriteOutcome) (fs : FileState)
    (transport : JVal) : Bool × FileState :=
  match pySetSection (get_settings wo fs).1 "transport" transport with
  | .error _ => (false, (get_settings wo fs).2)
  | .ok s => (true, save_settings wo (get_settings wo fs).2 s)

/-- `update_micro_ros_agent_port` (settings.py lines 184-207). -/
def update_micro_ros_agent_port (wo : WriteOutcome) (fs : FileState)
    (port : JVal) : Bool × FileState :=
  match pySetSection (get_settings wo fs).1 "port" port with
  | .error _ => (false, (get_settings wo fs).2)
  | .ok s => (true, save_settings wo (get_settings wo fs).2 s)

/-- `update_micro_ros_agent_verbose` (settings.py lines 225-248). -/
def update_micro_ros_agent_verbose (wo : WriteOutcome) (fs : FileState)
    (verbose : JVal) : Bool × FileState :=
  match pySetSection (get_settings wo fs).1 "verbose" verbose with
  | .error _ => (false, (get_settings wo fs).2)
  | .ok s => (true, save_settings wo (get_settings wo fs).2 s)

/-- `update_micro_ros_agent_enabled` (settings.py lines 102-125). -/
def update_micro_ros_agent_enabled (wo : WriteOutcome) (fs : FileState)
    (enabled : JVal) : Bool × FileState :=
  match pySetSection (get_settings wo fs).1 "enabled" enabled with
  | .error _ => (false, (get_settings wo fs).2)
  | .ok s => (true, save_settings wo (get_settings wo fs).2 s)

/-!
Model of `app/main.py`. The two module-level globals
`micro_ros_agent_running` and `micro_ros_agent` together with the
settings file form the application state. The async internal functions
contain no `await`, so once the event loop schedules a task created by
`asyncio.create_task` it runs to completion atomically; the endpoint
model below folds that execution into the `await asyncio.sleep(2)`
suspension point, which is the behaviour of the single-threaded asyncio
loop for this program.
-/

/-- One log line at its severity (the text is irrelevant to the claims). -/
inductive LogEntry where
  | info : LogEntry
  | error : LogEntry
deriving Repr, DecidableEq

/-- The module-level mutable state of `app/main.py` plus the settings
file: `micro_ros_agent_running` (line 57), `micro_ros_agent` (line 58,
never assigned anywhere because the spawn code is commented out). -/
structure AppState where
  running : Bool
  agent : Option Unit
  file : FileState
deriving Repr

/-- JSON body `(success, message)` returned by the start/stop endpoints. -/
structure ApiResult where
  success : Bool
  message : String
deriving Repr, DecidableEq

/-- The sequence `transport = ...; port = ...; verbose = ...` of the
three settings reads (main.py lines 97-99, also 160-162), threading the
file state and stopping at the first raised exception. -/
def read_agent_settings (wo : WriteOutcome) (fs : FileState) :
    Except PyErr (JVal × JVal × JVal × FileState) × FileState :=
  match get_micro_ros_agent_transport wo fs with
  | .error e => (.error e, fs)
  | .ok (t, f1) =>
    match get_micro_ros_agent_port wo f1 with
    | .error e => (.error e, f1)
    | .ok (p, f2) =>
      match get_micro_ros_agent_verbose wo f2 with
      | .error e => (.error e, f2)
      | .ok (v, f3) => (.ok (t, p, v, f3), f3)

/-- `start_micro_ros_agent_internal` (main.py lines 84-125): sets
`micro_ros_agent_running = True`, reads the three settings, logs them
(or logs the caught exception) and logs "stopped" in the `finally`.
The actual spawn is commented out in the source, so the flag and the
logs are its only effects; in particular the flag stays `True` even
when a settings read raised. -/
def start_micro_ros_agent_internal (wo : WriteOutcome) (st : AppState) :
    AppState × List LogEntry :=
  match read_agent_settings wo st.file with
  | (.error _, f) => ({ st with running := true, file := f }, [.info, .error, .info])
  | (.ok _, f) => ({ st with running := true, file := f }, [.info, .info, .info])

/-- `stop_micro_ros_agent_internal` (main.py lines 129-147): sets
`micro_ros_agent_running = False`; `micro_ros_agent` is never assigned
in this program, so the `micro_ros_agent.stop()` branch carries no
state. The global `micro_ros_agent` itself is not cleared. -/
def stop_micro_ros_agent_internal (st : AppState) : AppState × List LogEntry :=
  ({ st with running := false }, [.info, .info])

/-- `startup_auto_restart` (main.py lines 65-80): reads the persisted
enabled flag and, when truthy, schedules `start_micro_ros_agent_internal`
as a background task. The third component counts the tasks scheduled.
`get_micro_ros_agent_enabled` never raises and `create_task` cannot
fail here, so the surrounding try/except is dead and the function is
total: no failure can crash the control plane through it. -/
def startup_auto_restart (wo : WriteOutcome) (st : AppState) :
    AppState × List LogEntry × Nat :=
  match get_micro_ros_agent_enabled wo st.file with
  | (v, f1) =>
    if pyTruthy v then
      match start_micro_ros_agent_internal wo { st with file := f1 } with
      | (st1, lg) => (st1, .info :: lg, 1)
    else ({ st with file := f1 }, [], 0)

/-- `start_micro_ros_agent` endpoint (main.py lines 252-281): if the
running flag is set, return the already-running failure without
scheduling anything; otherwise schedule the internal start task (which
runs during the 2 second sleep) and report success iff the flag is set
afterwards. The third component counts internal start tasks scheduled. -/
def start_micro_ros_agent (wo : WriteOutcome) (st : AppState) :
    ApiResult × AppState × Nat :=
  if st.running then
    ({ success := false, message := "the micro-ROS Agent is already running" }, st, 0)
  else
    match start_micro_ros_agent_internal wo st with
    | (st1, _) =>
      if st1.running then
        ({ success := true, message := "the micro-ROS Agent started successfully" }, st1, 1)
      else
        ({ success := false,
           message := "the micro-ROS Agent failed to start (check logs for details)" }, st1, 1)

/-- `stop_micro_ros_agent` endpoint (main.py lines 285-314): always
schedules the internal stop task (which runs during the 2 second
sleep), then reports success iff the running flag is clear. -/
def stop_micro_ros_agent (st : AppState) : ApiResult × AppState :=
  match stop_micro_ros_agent_internal st with
  | (st1, _) =>
    if st1.running then
      ({ success := false,
         message := "the micro-ROS Agent failed to stop (check logs for details)" }, st1)
    else
      ({ success := true, message := "the micro-ROS Agent stopped successfully" }, st1)

/-- Response of the `get-settings` endpoint. -/
structure GetSettingsResponse where
  success : Bool
  transport : Option JVal
  port : Option JVal
  verbose : Option JVal
deriving Repr

/-- `get_micro_ros_agent_settings` endpoint (main.py lines 153-174):
reads the three settings inside try/except and returns them, or a
failure body when one of the reads raised. -/
def get_micro_ros_agent_settings (wo : WriteOutcome) (fs : FileState) :
    GetSettingsResponse × FileState :=
  match read_agent_settings wo fs with
  | (.ok (t, p, v, _), f) =>
      ({ success := true, transport := some t, port := some p, verbose := some v }, f)
  | (.error _, f) =>
      ({ success := false, transport := none, port := none, verbose := none }, f)

/-- JSON body and status code produced by the FastAPI exception handler. -/
structure ErrorResponse where
  status : Nat
  success : Bool
  message : String
  error : String
deriving Repr

/-- `global_exception_handler` (main.py lines 43-53), as a function of
`str(exc)`: a 500 JSONResponse whose `message` interpolates the
exception text and whose `error` field is the fixed generic string. -/
def global_exception_handler (exc : String) : ErrorResponse :=
  { status := 500
    success := false
    message := "Internal server error: " ++ exc
    error := "Internal server error" }

/-!
Interleaving model of concurrent `start` endpoint calls (main.py lines
252-281) for the concurrency claim. Under asyncio, each handler is a
task; code between two `await` points runs atomically. A handler for
`/micro-ros-agent/start` therefore consists of two atomic blocks:

1. the flag check `if micro_ros_agent_running` followed (in the same
   block, no `await` between them) by `asyncio.create_task(...)` and
   entering `await asyncio.sleep(2)`;
2. after the sleep, the re-check of the flag and the response.

The internal start task contains no `await`, so it runs as a single
atomic step; it sets the running flag (the commented-out process spawn
would also happen there, so it is counted as the spawn side effect).
Because tasks that are immediately ready run long before a 2 second
timer fires, a handler's second block can only run once no scheduled
internal task is still pending.
-/

/-- Scheduler actions: advance handler 0, advance handler 1, or run one
pending internal start task. -/
inductive SAct where
  | c0 : SAct
  | c1 : SAct
  | task : SAct
deriving Repr, DecidableEq

/-- Global configuration of two concurrent `start` handler calls:
the shared running flag, the number of pending internal start tasks,
the number of spawn side effects performed, each handler's program
counter (0 = before the flag check, 1 = sleeping, 2 = returned) and
each handler's response (`some success?`) once returned. -/
structure Sched where
  running : Bool
  tasks : Nat
  spawns : Nat
  pc0 : Nat
  pc1 : Nat
  res0 : Option Bool
  res1 : Option Bool
deriving Repr, DecidableEq

/-- One atomic step of the interleaved system; `none` when the chosen
action is not enabled. -/
def doStep (s : Sched) (a : SAct) : Option Sched :=
  match a with
  | .task =>
      if 0 < s.tasks then
        some { s with tasks := s.tasks - 1, running := true, spawns := s.spawns + 1 }
      else none
  | .c0 =>
      if s.pc0 = 0 then
        if s.running then some { s with pc0 := 2, res0 := some false }
        else some { s with pc0 := 1, tasks := s.tasks + 1 }
      else if s.pc0 = 1 then
        if s.tasks = 0 then some { s with pc0 := 2, res0 := some s.running }
        else none
      else none
  | .c1 =>
      if s.pc1 = 0 then
        if s.running then some { s with pc1 := 2, res1 := some false }
        else some { s with pc1 := 1, tasks := s.tasks + 1 }
      else if s.pc1 = 1 then
        if s.tasks = 0 then some { s with pc1 := 2, res1 := some s.running }
        else none
      else none

/-- Run a whole interleaving. -/
def runTrace : Sched → List SAct → Option Sched
  | s, [] => some s
  | s, a :: tr =>
    match doStep s a with
    | none => none
    | some s' => runTrace s' tr

/-- Two concurrent `start` calls arriving while the agent is stopped. -/
def initSched : Sched :=
  { running := false, tasks := 0, spawns := 0, pc0 := 0, pc1 := 0,
    res0 := none, res1 := none }

/-- The interleaving in which both handlers run their first atomic block
before either internal task gets the loop: both flag checks see `False`. -/
def doubleSpawnTrace : List SAct := [.c0, .c1, .task, .task, .c0, .c1]

/-- Contribution of one handler to the count of started spawn requests:
a handler that passed its flag check with the flag unset (so scheduled a
task) is past pc 0 and did not return the already-running failure. -/
def wci (pc : Nat) (res : Option Bool) : Nat :=
  if pc = 0 then 0 else if res = some false then 0 else 1

/-- Number of handlers that scheduled an internal start task. -/
def wcount (s : Sched) : Nat := wci s.pc0 s.res0 + wci s.pc1 s.res1

/-- Inductive invariant of the interleaved system. -/
def SchedInv (s : Sched) : Prop :=
  s.spawns + s.tasks = wcount s ∧
  (s.running = true ↔ 0 < s.spawns) ∧
  (s.pc0 = 0 → s.res0 = none) ∧
  (s.pc1 = 0 → s.res1 = none) ∧
  (s.pc0 = 1 → s.res0 = none) ∧
  (s.pc1 = 1 → s.res1 = none) ∧
  (s.pc0 = 2 → s.res0 ≠ none) ∧
  (s.pc1 = 2 → s.res1 ≠ none) ∧
  (s.res0 ≠ none → 0 < s.spawns) ∧
  (s.res1 ≠ none → 0 < s.spawns)

/-- A settings file with a saved non-default configuration and the agent
enabled, used as a concrete pre-state in several results. -/
def storedSettingsFile : FileState :=
  .content (.jObj [("micro_ros_agent", .jObj
    [("enabled", .jBool true),
     ("transport", .jStr "serial"),
     ("port", .jInt 8888),
     ("verbose", .jStr "6")])])

/-- Lookup of a key inside the `micro_ros_agent` section of a parsed
settings document, as seen by the getters: `none` when the section is
absent (they then fall back to the documented default). -/
def sectGet (fields : List (String × JVal)) (key : String) : Option JVal :=
  match alistLookup fields "micro_ros_agent" with
  | some (.jObj sect) => alistLookup sect key
  | _ => none

/-- Settings files on which the transport/port/verbose getters cannot
raise: anything except parsed content whose document is a non-object or
whose `micro_ros_agent` entry is a non-object. -/
def wellShapedFile : FileState → Bool
  | .content (.jObj fields) =>
    match alistLookup fields "micro_ros_agent" with
    | some (.jObj _) => true
    | some _ => false
    | none => true
  | .content _ => false
  | _ => true

/-! Helper lemmas. -/

/-- Reading back a key just assigned into a Python dict yields the
assigned value. -/
theorem alistLookup_alistSet_self (l : List (String × JVal)) (key : String) (v : JVal) :
    alistLookup (alistSet l key v) key = some v := by
  induction l with
  | nil => simp [alistSet, alistLookup]
  | cons hd tl ih =>
    obtain ⟨k, w⟩ := hd
    by_cases hk : k = key
    · simp [alistSet, hk, alistLookup]
    · simp [alistSet, hk, alistLookup, ih]

/-- Shape of a document produced by a successful
`settings["micro_ros_agent"][key] = v` assignment. -/
theorem pySetSection_shape {s s' : JVal} {key : String} {v : JVal}
    (h : pySetSection s key v = .ok s') :
    ∃ fields sect, s' = .jObj fields ∧
      alistLookup fields "micro_ros_agent" = some (.jObj sect) ∧
      alistLookup sect key = some v := by
  cases s with
  | jNull => exact absurd h (by simp [pySetSection])
  | jBool b => exact absurd h (by simp [pySetSection])
  | jInt n => exact absurd h (by simp [pySetSection])
  | jStr t => exact absurd h (by simp [pySetSection])
  | jArr xs => exact absurd h (by simp [pySetSection])
  | jObj fields =>
    simp only [pySetSection] at h
    cases hl : alistLookup fields "micro_ros_agent" with
    | none =>
      rw [hl] at h
      refine ⟨_, _, (Except.ok.inj h).symm, alistLookup_alistSet_self .., ?_⟩
      simp [alistLookup]
    | some j =>
      rw [hl] at h
      cases j with
      | jObj sect =>
        exact ⟨_, _, (Except.ok.inj h).symm, alistLookup_alistSet_self ..,
               alistLookup_alistSet_self ..⟩
      | jNull => exact absurd h (by simp)
      | jBool b => exact absurd h (by simp)
      | jInt n => exact absurd h (by simp)
      | jStr t => exact absurd h (by simp)
      | jArr xs => exact absurd h (by simp)

/-- After a successful section assignment, the getters' chained
`.get("micro_ros_agent", ...).get(key, ...)` returns the assigned value. -/
theorem pyGetSectionKey_after_set {s s' : JVal} {key : String} {v d : JVal}
    (h : pySetSection s key v = .ok s') :
    pyGetSectionKey s' key d = .ok v := by
  obtain ⟨fields, sect, rfl, h1, h2⟩ := pySetSection_shape h
  simp [pyGetSectionKey, pyDictGet, h1, h2]

/-! Claim theorems. -/

/-- C1: when the running flag is already set, the start endpoint returns
the already-running failure response, schedules no second internal start
task, and leaves the application state unchanged. -/
theorem start_noop_when_already_running (wo : WriteOutcome) (st : AppState)
    (h : st.running = true) :
    start_micro_ros_agent wo st =
      ({ success := false, message := "the micro-ROS Agent is already running" }, st, 0) := by
  simp [start_micro_ros_agent, h]

/-- C1 witness: the start endpoint at a concrete running state. -/
theorem start_noop_when_already_running_witness :
    start_micro_ros_agent .ok { running := true, agent := none, file := .absent } =
      ({ success := false, message := "the micro-ROS Agent is already running" },
       { running := true, agent := none, file := .absent }, 0) :=
  start_noop_when_already_running .ok _ rfl

/-- C2 evaluation: when persisting fails with an I/O error,
`update_micro_ros_agent_transport` still returns `True` (because
`save_settings` swallows the exception), contradicting the claim and the
function's own docstring; the durable state is unchanged only when the
failure precedes the `open`, while a failure during `json.dump` leaves a
truncated, unparseable file. -/
theorem update_transport_true_despite_io_failure :
    (update_micro_ros_agent_transport .failEarly storedSettingsFile (.jStr "udp6")).1 = true ∧
    (update_micro_ros_agent_transport .failEarly storedSettingsFile (.jStr "udp6")).2 =
      storedSettingsFile ∧
    (update_micro_ros_agent_transport .failMid storedSettingsFile (.jStr "udp6")).1 = true ∧
    (update_micro_ros_agent_transport .failMid storedSettingsFile (.jStr "udp6")).2 =
      .unparseable :=
  ⟨rfl, rfl, rfl, rfl⟩

/-- C4 evaluation: on a fresh store the get-settings endpoint succeeds
and creates the settings file with the defaults, but port and verbose
come back as the JSON STRINGS "2019" and "4" (the values stored in
`DEFAULT_SETTINGS`), not as the integers the claim states. -/
theorem fresh_store_get_settings_string_defaults :
    get_micro_ros_agent_settings .ok .absent =
      ({ success := true, transport := some (.jStr "udp4"),
         port := some (.jStr "2019"), verbose := some (.jStr "4") },
       .content DEFAULT_SETTINGS) ∧
    (JVal.jStr "2019" = JVal.jInt 2019 → False) ∧
    (JVal.jStr "4" = JVal.jInt 4 → False) :=
  ⟨rfl, fun h => JVal.noConfusion h, fun h => JVal.noConfusion h⟩

/-- C6: calling the stop endpoint while the running flag is already
clear is an idempotent no-op: the response reports success and the
application state is unchanged. -/
theorem stop_idempotent_when_stopped (st : AppState) (h : st.running = false) :
    stop_micro_ros_agent st =
      ({ success := true, message := "the micro-ROS Agent stopped successfully" }, st) := by
  cases st with
  | mk running agent file =>
    subst h
    rfl

/-- C6 witness: the stop endpoint at a concrete stopped state. -/
theorem stop_idempotent_when_stopped_witness :
    stop_micro_ros_agent { running := false, agent := none, file := .absent } =
      ({ success := true, message := "the micro-ROS Agent stopped successfully" },
       { running := false, agent := none, file := .absent }) :=
  stop_idempotent_when_stopped _ rfl

/-- C8 counterexample: the message field of the 500 response is NOT
generic: it interpolates the internal exception text, so two different
internal errors produce two different caller-visible messages. -/
theorem exception_handler_message_leaks_detail :
    (global_exception_handler "boom").message = "Internal server error: boom" ∧
    (global_exception_handler "boom").message ≠ (global_exception_handler "other").message :=
  ⟨rfl, by decide⟩

/-- C8 amended: every unhandled internal error produces HTTP 500 with
the uniform body (success false, message, error); the `error` field is
the fixed generic string, but the `message` field embeds the internal
exception detail after the prefix. -/
theorem exception_handler_shape (exc : String) :
    (global_exception_handler exc).status = 500 ∧
    (global_exception_handler exc).success = false ∧
    (global_exception_handler exc).error = "Internal server error" ∧
    (global_exception_handler exc).message = "Internal server error: " ++ exc :=
  ⟨rfl, rfl, rfl, rfl⟩

/-- C8 amended witness: the handler at a concrete exception text. -/
theorem exception_handler_shape_witness :
    (global_exception_handler "boom").status = 500 ∧
    (global_exception_handler "boom").success = false ∧
    (global_exception_handler "boom").error = "Internal server error" ∧
    (global_exception_handler "boom").message = "Internal server error: " ++ "boom" :=
  exception_handler_shape "boom"

/-- C10: when the settings file exists but is unreadable or cannot be
parsed, any read path rewrites the entire file with `DEFAULT_SETTINGS`,
discarding whatever was persisted before (including the enabled flag):
a get operation mutates the durable store. -/
theorem get_rewrites_corrupt_file_with_defaults (fs : FileState)
    (h : fs = .unreadable ∨ fs = .unparseable) :
    get_settings .ok fs = (DEFAULT_SETTINGS, .content DEFAULT_SETTINGS) ∧
    get_micro_ros_agent_transport .ok fs =
      .ok (default_transport, .content DEFAULT_SETTINGS) ∧
    get_micro_ros_agent_enabled .ok fs = (default_enabled, .content DEFAULT_SETTINGS) := by
  rcases h with rfl | rfl <;> exact ⟨rfl, rfl, rfl⟩

/-- C10 witness: a concrete unparseable file is replaced by the defaults. -/
theorem get_rewrites_corrupt_file_with_defaults_witness :
    get_settings .ok .unparseable = (DEFAULT_SETTINGS, .content DEFAULT_SETTINGS) :=
  (get_rewrites_corrupt_file_with_defaults .unparseable (Or.inr rfl)).1

/-- C5: for every supported key (transport, port, verbose, enabled) and
every value, a set that actually persists (the write succeeds and the
update reports success) followed by a get of the same key returns
exactly that value. -/
theorem settings_set_get_roundtrip (fs : FileState) (v : JVal) :
    ((update_micro_ros_agent_transport .ok fs v).1 = true →
      get_micro_ros_agent_transport .ok (update_micro_ros_agent_transport .ok fs v).2 =
        .ok (v, (update_micro_ros_agent_transport .ok fs v).2)) ∧
    ((update_micro_ros_agent_port .ok fs v).1 = true →
      get_micro_ros_agent_port .ok (update_micro_ros_agent_port .ok fs v).2 =
        .ok (v, (update_micro_ros_agent_port .ok fs v).2)) ∧
    ((update_micro_ros_agent_verbose .ok fs v).1 = true →
      get_micro_ros_agent_verbose .ok (update_micro_ros_agent_verbose .ok fs v).2 =
        .ok (v, (update_micro_ros_agent_verbose .ok fs v).2)) ∧
    ((update_micro_ros_agent_enabled .ok fs v).1 = true →
      (get_micro_ros_agent_enabled .ok (update_micro_ros_agent_enabled .ok fs v).2).1 = v) := by
  refine ⟨?_, ?_, ?_, ?_⟩
  · intro h
    cases hset : pySetSection (get_settings .ok fs).1 "transport" v with
    | error e => simp [update_micro_ros_agent_transport, hset] at h
    | ok s =>
      simp only [update_micro_ros_agent_transport, hset, save_settings]
      simp only [get_micro_ros_agent_transport, get_settings,
                 pyGetSectionKey_after_set hset]
  · intro h
    cases hset : pySetSection (get_settings .ok fs).1 "port" v with
    | error e => simp [update_micro_ros_agent_port, hset] at h
    | ok s =>
      simp only [update_micro_ros_agent_port, hset, save_settings]
      simp only [get_micro_ros_agent_port, get_settings,
                 pyGetSectionKey_after_set hset]
  · intro h
    cases hset : pySetSection (get_settings .ok fs).1 "verbose" v with
    | error e => simp [update_micro_ros_agent_verbose, hset] at h
    | ok s =>
      simp only [update_micro_ros_agent_verbose, hset, save_settings]
      simp only [get_micro_ros_agent_verbose, get_settings,
                 pyGetSectionKey_after_set hset]
  · intro h
    cases hset : pySetSection (get_settings .ok fs).1 "enabled" v with
    | error e => simp [update_micro_ros_agent_enabled, hset] at h
    | ok s =>
      obtain ⟨fields, sect, hs, h1, h2⟩ := pySetSection_shape hset
      subst hs
      simp only [update_micro_ros_agent_enabled, hset, save_settings]
      simp only [get_micro_ros_agent_enabled, get_settings, h1, h2]

/-- C5 witness: a concrete round-trip through the transport key
starting from a fresh store. -/
theorem settings_set_get_roundtrip_witness :
    get_micro_ros_agent_transport .ok
        (update_micro_ros_agent_transport .ok .absent (.jStr "udp6")).2 =
      .ok (.jStr "udp6", (update_micro_ros_agent_transport .ok .absent (.jStr "udp6")).2) :=
  (settings_set_get_roundtrip .absent (.jStr "udp6")).1 rfl

/-- C3 counterexample: a settings file whose JSON parses to a non-object
(here the array given by an empty list) makes the transport getter raise
`AttributeError` to its caller, so the universal never-raises claim
fails as stated. -/
theorem get_transport_raises_on_non_object_file :
    get_micro_ros_agent_transport .ok (.content (.jArr [])) = .error .attributeError :=
  rfl

/-- C3 amended: for an absent, unreadable or unparseable file the
transport/port/verbose getters return the documented defaults without
raising, and for a file parsing to an object whose micro_ros_agent
entry (if present) is an object they return the stored value or the
default without raising; only a file parsing to a non-object, or to an
object whose micro_ros_agent entry is a non-object, makes these three
getters raise `AttributeError` (the enabled getter catches even that
case and returns `False`). -/
theorem mra_getters_no_raise_on_wellshaped (wo : WriteOutcome) (fs : FileState)
    (h : wellShapedFile fs = true) :
    ((fs = .absent ∨ fs = .unreadable ∨ fs = .unparseable) →
      get_micro_ros_agent_transport wo fs =
        .ok (default_transport, save_settings wo fs DEFAULT_SETTINGS) ∧
      get_micro_ros_agent_port wo fs =
        .ok (default_port, save_settings wo fs DEFAULT_SETTINGS) ∧
      get_micro_ros_agent_verbose wo fs =
        .ok (default_verbose, save_settings wo fs DEFAULT_SETTINGS)) ∧
    (∀ fields, fs = .content (.jObj fields) →
      get_micro_ros_agent_transport wo fs =
        .ok ((sectGet fields "transport").getD default_transport, fs) ∧
      get_micro_ros_agent_port wo fs =
        .ok ((sectGet fields "port").getD default_port, fs) ∧
      get_micro_ros_agent_verbose wo fs =
        .ok ((sectGet fields "verbose").getD default_verbose, fs)) := by
  constructor
  · rintro (rfl | rfl | rfl) <;> exact ⟨rfl, rfl, rfl⟩
  · rintro fields rfl
    cases hl : alistLookup fields "micro_ros_agent" with
    | none =>
      refine ⟨?_, ?_, ?_⟩ <;>
        simp [get_micro_ros_agent_transport, get_micro_ros_agent_port,
              get_micro_ros_agent_verbose, get_settings, pyGetSectionKey,
              pyDictGet, sectGet, hl, alistLookup]
    | some j =>
      cases j with
      | jObj sect =>
        refine ⟨?_, ?_, ?_⟩ <;>
          simp [get_micro_ros_agent_transport, get_micro_ros_agent_port,
                get_micro_ros_agent_verbose, get_settings, pyGetSectionKey,
                pyDictGet, sectGet, hl]
      | jNull => simp [wellShapedFile, hl] at h
      | jBool b => simp [wellShapedFile, hl] at h
      | jInt n => simp [wellShapedFile, hl] at h
      | jStr t => simp [wellShapedFile, hl] at h
      | jArr xs => simp [wellShapedFile, hl] at h

/-- C3 amended witness: the getters on the concrete default settings
file return the stored defaults without raising. -/
theorem mra_getters_no_raise_on_wellshaped_witness :
    get_micro_ros_agent_transport .ok (.content DEFAULT_SETTINGS) =
      .ok (default_transport, .content DEFAULT_SETTINGS) :=
  ((mra_getters_no_raise_on_wellshaped .ok (.content DEFAULT_SETTINGS) rfl).2 _ rfl).1

/-- C7: given a truthy persisted enabled flag, boot reconciliation
(including the background start task it schedules) leaves the running
flag set, i.e. the status reported afterwards is Running, never
silently Stopped; given a falsy flag, no start task is scheduled and
the running flag is untouched; and when the background start hits an
error reading the settings, the error is recorded in the log while the
(total) reconciliation still completes without raising. -/
theorem startup_reconciliation_spec (wo : WriteOutcome) (st : AppState) :
    (pyTruthy (get_micro_ros_agent_enabled wo st.file).1 = true →
      (startup_auto_restart wo st).1.running = true ∧
      (startup_auto_restart wo st).2.2 = 1 ∧
      (∀ e, (read_agent_settings wo (get_micro_ros_agent_enabled wo st.file).2).1 = .error e →
        LogEntry.error ∈ (startup_auto_restart wo st).2.1)) ∧
    (pyTruthy (get_micro_ros_agent_enabled wo st.file).1 = false →
      (startup_auto_restart wo st).1.running = st.running ∧
      (startup_auto_restart wo st).2.2 = 0) := by
  cases hE : get_micro_ros_agent_enabled wo st.file with
  | mk v f1 =>
    by_cases ht : pyTruthy v = true
    · cases hR : read_agent_settings wo f1 with
      | mk r f =>
        constructor
        · intro _
          cases r with
          | error e' =>
            refine ⟨?_, ?_, ?_⟩ <;>
              simp [startup_auto_restart, hE, ht, start_micro_ros_agent_internal, hR]
          | ok x =>
            refine ⟨?_, ?_, ?_⟩
            · simp [startup_auto_restart, hE, ht, start_micro_ros_agent_internal, hR]
            · simp [startup_auto_restart, hE, ht, start_micro_ros_agent_internal, hR]
            · intro e he
              simp [hR] at he
        · intro hf
          simp [ht] at hf
    · have ht' : pyTruthy v = false := by
        cases hv : pyTruthy v
        · rfl
        · exact absurd hv ht
      constructor
      · intro htr
        simp [ht'] at htr
      · intro _
        constructor <;> simp [startup_auto_restart, hE, ht']

/-- C7 witness: reconciliation at a concrete state whose stored flag is
enabled sets the running flag. -/
theorem startup_reconciliation_spec_witness :
    (startup_auto_restart .ok
        { running := false, agent := none, file := storedSettingsFile }).1.running = true :=
  ((startup_reconciliation_spec .ok
      { running := false, agent := none, file := storedSettingsFile }).1 rfl).1

/-! Lemmas for the interleaving model. -/

/-- A handler contributes at most one scheduled start task. -/
theorem wci_le_one (pc : Nat) (res : Option Bool) : wci pc res ≤ 1 := by
  unfold wci
  split
  · omega
  · split <;> omega

/-- A handler before its flag check contributes nothing. -/
theorem wci_zero (res : Option Bool) : wci 0 res = 0 := by
  simp [wci]

/-- A sleeping handler (which scheduled a task) contributes one. -/
theorem wci_one_none : wci 1 none = 1 := by
  simp [wci]

/-- A handler that returned the already-running failure contributes
nothing. -/
theorem wci_two_some_false : wci 2 (some false) = 0 := by
  simp [wci]

/-- A handler that returned success after sleeping contributes one. -/
theorem wci_two_some_true : wci 2 (some true) = 1 := by
  simp [wci]

/-- Every enabled step preserves the scheduler invariant. -/
theorem doStep_inv {s s' : Sched} {a : SAct} (hi : SchedInv s)
    (h : doStep s a = some s') : SchedInv s' := by
  obtain ⟨h1, h2, h3, h4, h5, h6, h7, h8, h9, h10⟩ := hi
  unfold wcount at h1
  cases a with
  | task =>
    simp only [doStep] at h
    by_cases hT : 0 < s.tasks
    · rw [if_pos hT] at h
      injection h with h
      subst h
      refine ⟨?_, by simp, h3, h4, h5, h6, h7, h8,
              fun _ => Nat.succ_pos _, fun _ => Nat.succ_pos _⟩
      show s.spawns + 1 + (s.tasks - 1) = wci s.pc0 s.res0 + wci s.pc1 s.res1
      omega
    · rw [if_neg hT] at h
      exact absurd h (by simp)
  | c0 =>
    simp only [doStep] at h
    by_cases hp0 : s.pc0 = 0
    · rw [if_pos hp0] at h
      by_cases hr : s.running = true
      · rw [if_pos hr] at h
        injection h with h
        subst h
        refine ⟨?_, h2, fun hh => by simp at hh, h4,
                fun hh => by simp at hh, h6,
                fun _ => by simp, h8, fun _ => h2.mp hr, h10⟩
        show s.spawns + s.tasks = wci 2 (some false) + wci s.pc1 s.res1
        rw [wci_two_some_false]
        rw [hp0, wci_zero] at h1
        omega
      · rw [if_neg hr] at h
        injection h with h
        subst h
        have hres := h3 hp0
        refine ⟨?_, h2, fun hh => by simp at hh, h4,
                fun _ => hres, h6, fun hh => by simp at hh, h8,
                fun hne => h9 hne, h10⟩
        show s.spawns + (s.tasks + 1) = wci 1 s.res0 + wci s.pc1 s.res1
        rw [hres, wci_one_none]
        rw [hp0, wci_zero] at h1
        omega
    · rw [if_neg hp0] at h
      by_cases hp1 : s.pc0 = 1
      · rw [if_pos hp1] at h
        by_cases htz : s.tasks = 0
        · rw [if_pos htz] at h
          injection h with h
          subst h
          have hres := h5 hp1
          rw [hp1, hres, wci_one_none] at h1
          have hsp : 0 < s.spawns := by omega
          have hrun : s.running = true := h2.mpr hsp
          refine ⟨?_, h2, fun hh => by simp at hh, h4,
                  fun hh => by simp at hh, h6,
                  fun _ => by simp, h8, fun _ => hsp, h10⟩
          show s.spawns + s.tasks = wci 2 (some s.running) + wci s.pc1 s.res1
          rw [hrun, wci_two_some_true]
          omega
        · rw [if_neg htz] at h
          exact absurd h (by simp)
      · rw [if_neg hp1] at h
        exact absurd h (by simp)
  | c1 =>
    simp only [doStep] at h
    by_cases hp0 : s.pc1 = 0
    · rw [if_pos hp0] at h
      by_cases hr : s.running = true
      · rw [if_pos hr] at h
        injection h with h
        subst h
        refine ⟨?_, h2, h3, fun hh => by simp at hh,
                h5, fun hh => by simp at hh,
                h7, fun _ => by simp, h9, fun _ => h2.mp hr⟩
        show s.spawns + s.tasks = wci s.pc0 s.res0 + wci 2 (some false)
        rw [wci_two_some_false]
        rw [hp0, wci_zero] at h1
        omega
      · rw [if_neg hr] at h
        injection h with h
        subst h
        have hres := h4 hp0
        refine ⟨?_, h2, h3, fun hh => by simp at hh,
                h5, fun _ => hres, h7, fun hh => by simp at hh,
                h9, fun hne => h10 hne⟩
        show s.spawns + (s.tasks + 1) = wci s.pc0 s.res0 + wci 1 s.res1
        rw [hres, wci_one_none]
        rw [hp0, wci_zero] at h1
        omega
    · rw [if_neg hp0] at h
      by_cases hp1 : s.pc1 = 1
      · rw [if_pos hp1] at h
        by_cases htz : s.tasks = 0
        · rw [if_pos htz] at h
          injection h with h
          subst h
          have hres := h6 hp1
          rw [hp1, hres, wci_one_none] at h1
          have hsp : 0 < s.spawns := by omega
          have hrun : s.running = true := h2.mpr hsp
          refine ⟨?_, h2, h3, fun hh => by simp at hh,
                  h5, fun hh => by simp at hh,
                  h7, fun _ => by simp, h9, fun _ => hsp⟩
          show s.spawns + s.tasks = wci s.pc0 s.res0 + wci 2 (some s.running)
          rw [hrun, wci_two_some_true]
          omega
        · rw [if_neg htz] at h
          exact absurd h (by simp)
      · rw [if_neg hp1] at h
        exact absurd h (by simp)

/-- Running a whole interleaving preserves the scheduler invariant. -/
theorem runTrace_inv {tr : List SAct} {s s' : Sched} (hi : SchedInv s)
    (h : runTrace s tr = some s') : SchedInv s' := by
  induction tr generalizing s with
  | nil =>
    simp only [runTrace, Option.some.injEq] at h
    subst h
    exact hi
  | cons a tr ih =>
    simp only [runTrace] at h
    cases hstep : doStep s a with
    | none => rw [hstep] at h; exact absurd h (by simp)
    | some s1 => rw [hstep] at h; exact ih (doStep_inv hi hstep) h

/-- The initial configuration satisfies the invariant. -/
theorem initSched_inv : SchedInv initSched := by
  refine ⟨rfl, by simp [initSched], fun _ => rfl, fun _ => rfl, fun _ => rfl,
          fun _ => rfl, ?_, ?_, ?_, ?_⟩
  · intro hh; exact absurd hh (by decide)
  · intro hh; exact absurd hh (by decide)
  · intro hh; exact absurd rfl hh
  · intro hh; exact absurd rfl hh

/-- C9 counterexample: both handlers run their first atomic block
before either scheduled internal start task runs — a real asyncio
interleaving when both requests arrive together — and then TWO spawn
side effects occur, both callers receiving success. "Exactly one spawn"
is therefore false for the code. -/
theorem start_concurrent_double_spawn :
    runTrace initSched doubleSpawnTrace =
      some { running := true, tasks := 0, spawns := 2, pc0 := 2, pc1 := 2,
             res0 := some true, res1 := some true } ∧
    (runTrace initSched doubleSpawnTrace).map Sched.spawns = some 2 ∧
    (runTrace initSched doubleSpawnTrace).map Sched.spawns ≠ some 1 :=
  ⟨rfl, rfl, by decide⟩

/-- C9 amended: for every complete interleaving of two concurrent start
calls from the stopped state, between one and two spawn side effects
occur (one per caller whose flag check saw the flag unset); exactly one
is guaranteed only when one caller's internal task runs before the
other caller's flag check, because the check is not under mutual
exclusion with the spawn. -/
theorem start_concurrent_spawn_bounds (tr : List SAct) (s : Sched)
    (h : runTrace initSched tr = some s) (h0 : s.pc0 = 2) (h1 : s.pc1 = 2) :
    1 ≤ s.spawns ∧ s.spawns ≤ 2 := by
  obtain ⟨i1, i2, i3, i4, i5, i6, i7, i8, i9, i10⟩ := runTrace_inv initSched_inv h
  constructor
  · exact i9 (i7 h0)
  · have w0 := wci_le_one s.pc0 s.res0
    have w1 := wci_le_one s.pc1 s.res1
    simp only [wcount] at i1
    omega

/-- C9 amended witness: a serialized interleaving (first caller's task
runs before the second caller's check) completes with exactly one
spawn, within the proved bounds. -/
theorem start_concurrent_spawn_bounds_witness :
    1 ≤ ({ running := true, tasks := 0, spawns := 1, pc0 := 2, pc1 := 2,
           res0 := some true, res1 := some false } : Sched).spawns ∧
    ({ running := true, tasks := 0, spawns := 1, pc0 := 2, pc1 := 2,
       res0 := some true, res1 := some false } : Sched).spawns ≤ 2 :=
  start_concurrent_spawn_bounds [.c0, .task, .c0, .c1] _ rfl rfl rfl
